import Mathlib

/-!
Shallow embedding of the CRISiSLab dashboard core (`src/dashboard/dashboard.py`):
the per-channel time-series buffers of `UpdatingGraphFigure`, the water-height
model, the calibration procedures, the alarm latch logic and the windowed
statistics of `Dashboard`.

Modelling conventions: Python floats are modelled as rationals; a Python value
that may be `None` is modelled as an `Option`; a `try/except` block whose body
raises before (or between) assignments is modelled by returning the state with
exactly the assignments that already happened, together with a `Bool` success
flag.  GUI-only effects (widget colours, status strings, redraws) are outside
the embedding.
-/

namespace Crisislab

/-- One graph channel of `UpdatingGraphFigure`: the parallel lists
`x_points[i]` (timestamps) and `y_points[i]` (values).  `add_data_point`
appends to both in lockstep, so both lists always have the same length. -/
structure Channel where
  xs : List ℚ
  ys : List ℚ
  deriving DecidableEq

/-- `UpdatingGraphFigure.add_data_point` (dashboard.py lines 1067-1079): append
the coordinate pair to the channel unconditionally.  The source performs no
check of any kind on `x`; in particular it never compares `x` with the last
appended timestamp. -/
def add_data_point (ch : Channel) (x y : ℚ) : Channel :=
  { ch with xs := ch.xs ++ [x], ys := ch.ys ++ [y] }

/-- `UpdatingGraphFigure.get_data_within_last_x` (lines 1094-1131): walk the
channel backwards from the most recent sample (Python negative indices
`-1, -2, ...`), appending points to the result while `x_point < min_x` is
false, and stopping at the first older point or when an index goes out of
range.  The kept x's and y's therefore come out newest first.  Walking both
parallel lists backwards in lockstep is walking `(xs.zip ys).reverse`
(the lists have equal length, see `add_data_point`). -/
def get_data_within_last_x (ch : Channel) (min_x : ℚ) : List ℚ × List ℚ :=
  let kept := (ch.xs.zip ch.ys).reverse.takeWhile fun pt => !decide (pt.1 < min_x)
  (kept.map Prod.fst, kept.map Prod.snd)

/-- `Dashboard.calculate_water_height` (lines 608-622): hydrostatic water
height from a pressure sample and the calibrated air-pressure baseline,
`h = (pressure - baseline) * 100 / (997 * 9.81)` metres; a negative height is
returned as `0`, otherwise the height is converted to centimetres.  The
source's float literal `9.81` is written as the exact rational `981 / 100`. -/
def calculate_water_height (calibrated_air_pressure pressure : ℚ) : ℚ :=
  let WATER_DENSITY : ℚ := 997
  let GRAVITY_FORCE : ℚ := 981 / 100
  let water_height := ((pressure - calibrated_air_pressure) * 100) / (WATER_DENSITY * GRAVITY_FORCE)
  if water_height < 0 then 0
  else water_height * 100

/-- `Dashboard.get_number_color` (lines 724-743): colour of a displayed
statistic.  A `max` of exactly `0` short-circuits to the default colour before
the ratio `number / max` is formed; otherwise the colour is banded by the
ratio.  The source's float literals `0.75` and `0.5` are written as the exact
rationals `3 / 4` and `1 / 2`. -/
def get_number_color (number mx : ℚ) : String :=
  if mx = 0 then "#E4FDE1"
  else
    let ratio := number / mx
    if ratio > 1 then "#FB363A"
    else if ratio > 3 / 4 then "#F97E36"
    else if ratio > 1 / 2 then "#E8E055"
    else "#41D3BD"

/-- The dashboard session state: the two graph channels (subplot 0 = pressure,
subplot 1 = water height) together with the calibration, threshold and alarm
fields initialised in `Dashboard.__init__` (lines 34-58).  The redundant
`self.pressure_data` mirror of channel 0 (appended to but never read) is
omitted. -/
structure DashState where
  pressureCh : Channel
  waterHeightCh : Channel
  calibrated_air_pressure : Option ℚ
  standing_water_level : Option ℚ
  standing_water_air_pressure : Option ℚ
  alarm_threshold : Option ℚ
  alarm_sent : Bool
  alarm_cooldown : Bool
  pressure_on_alarm_activate : Option ℚ
  wave_height_on_alarm_activate : Option ℚ
  deriving DecidableEq

/-- `Dashboard.__init__` (lines 34-58): empty buffers, everything
uncalibrated, no threshold, alarm flags cleared, no snapshot. -/
def dashboard_init : DashState :=
  { pressureCh := ⟨[], []⟩
    waterHeightCh := ⟨[], []⟩
    calibrated_air_pressure := none
    standing_water_level := none
    standing_water_air_pressure := none
    alarm_threshold := none
    alarm_sent := false
    alarm_cooldown := false
    pressure_on_alarm_activate := none
    wave_height_on_alarm_activate := none }

/-- `Dashboard.new_pressure_data` (lines 553-588): append the pressure sample
to channel 0; if air pressure is calibrated, derive the water height and
append it to channel 1; if additionally the standing water level and the alarm
threshold are set, compare the wave height against the threshold and — only
when the alarm has not been sent yet — store the activation snapshot, set the
`alarm_sent` latch and dispatch the alarm (the returned `Bool` is `true`
exactly when the alarm-sending thread is started). -/
def new_pressure_data (st : DashState) (t pressure : ℚ) : DashState × Bool :=
  let st1 := { st with pressureCh := add_data_point st.pressureCh t pressure }
  match st1.calibrated_air_pressure with
  | none => (st1, false)
  | some base =>
    let water_height := calculate_water_height base pressure
    let st2 := { st1 with waterHeightCh := add_data_point st1.waterHeightCh t water_height }
    match st2.standing_water_level, st2.alarm_threshold with
    | some swl, some thr =>
      let wave_height := water_height - swl
      if wave_height > thr ∧ st2.alarm_sent = false then
        ({ st2 with pressure_on_alarm_activate := some pressure
                    wave_height_on_alarm_activate := some wave_height
                    alarm_sent := true }, true)
      else (st2, false)
    | _, _ => (st2, false)

/-- `Dashboard.reset_alarm` (lines 462-479): clear the latch, the cooldown
flag and the captured activation snapshot. -/
def reset_alarm (st : DashState) : DashState :=
  { st with alarm_sent := false
            alarm_cooldown := false
            pressure_on_alarm_activate := none
            wave_height_on_alarm_activate := none }

/-- `Dashboard.set_alarm_threshold` (lines 829-856).  The entry text is
modelled after parsing: `none` is an input on which Python `float()` raises
`ValueError`, `some v` an input parsing to `v`.  The source rejects when the
standing water level is uncalibrated, when parsing fails, or when
`alarm_threshold < 0` (its rejection message reads "must be greater than 0",
but the comparison written is a strict less-than with zero); on every
rejection the stored threshold is untouched.  The `Bool` is `true` when the
input is accepted and the threshold stored. -/
def set_alarm_threshold (st : DashState) (input : Option ℚ) : DashState × Bool :=
  match st.standing_water_level with
  | none => (st, false)
  | some _ =>
    match input with
    | none => (st, false)
    | some alarm_threshold =>
      if alarm_threshold < 0 then (st, false)
      else ({ st with alarm_threshold := some alarm_threshold }, true)

/-- The sample window collected by `Dashboard.calibrate_air_pressure`
(lines 796-810): pressure values of channel 0, scanned backwards from the most
recent point, kept while `now - t ≤ len` and cut at the first older point
(or when an index goes out of range). -/
def air_pressure_window (st : DashState) (now len : ℚ) : List ℚ :=
  ((st.pressureCh.xs.zip st.pressureCh.ys).reverse.takeWhile
    fun pt => decide (now - pt.1 ≤ len)).map Prod.snd

/-- `Dashboard.calibrate_air_pressure` (lines 793-826): average the collected
window; `sum(...) / len(...)` over an empty window raises
`ZeroDivisionError` before the assignment, so the state is returned unchanged
with a `false` success flag and nothing is calibrated. -/
def calibrate_air_pressure (st : DashState) (now len : ℚ) : DashState × Bool :=
  let pts := air_pressure_window st now len
  if pts.length = 0 then (st, false)
  else ({ st with calibrated_air_pressure := some (pts.sum / pts.length) }, true)

/-- `Dashboard.calibrate_swh` (lines 872-896): query both channels with
`get_data_within_last_x(now - len)`, then inside one `try` block assign
`standing_water_level := mean(water heights)` first and
`standing_water_air_pressure := mean(pressures)` second.  A
`ZeroDivisionError` in the first mean leaves both fields untouched; one in the
second mean leaves only the already-made first assignment (faithful to the
statement order in the source). -/
def calibrate_swh (st : DashState) (now len : ℚ) : DashState × Bool :=
  let pressure_data_points := (get_data_within_last_x st.pressureCh (now - len)).2
  let water_height_data_points := (get_data_within_last_x st.waterHeightCh (now - len)).2
  if water_height_data_points.length = 0 then (st, false)
  else
    let swl_mean := water_height_data_points.sum / water_height_data_points.length
    let st1 := { st with standing_water_level := some swl_mean }
    if pressure_data_points.length = 0 then (st1, false)
    else
      let swp_mean := pressure_data_points.sum / pressure_data_points.length
      ({ st1 with standing_water_air_pressure := some swp_mean }, true)

/-- The wave-height statistics portion of `Dashboard.update_statistics`
(lines 669-697): over the water-height window of the last `period` seconds,
when the window is non-empty and the standing water level is calibrated,
`max_wave_height := max(window) - standing_water_level` and
`current_wave_height := window[0] - standing_water_level` (the window is
newest-first, so `window[0]` is the most recent sample), each clamped below at
`0`; otherwise the statistics stay `None` ("N/A"). -/
def update_statistics (st : DashState) (now period : ℚ) : Option ℚ × Option ℚ :=
  let water_height_ys := (get_data_within_last_x st.waterHeightCh (now - period)).2
  match water_height_ys with
  | [] => (none, none)
  | y0 :: rest =>
    match st.standing_water_level with
    | none => (none, none)
    | some swl =>
      let max_water_height := rest.foldl max y0
      let max_wave_height := max_water_height - swl
      let current_wave_height := y0 - swl
      (some (if max_wave_height < 0 then 0 else max_wave_height),
       some (if current_wave_height < 0 then 0 else current_wave_height))

/-- A pressure sample breaches the alarm when its derived wave height (water
height minus standing water level) strictly exceeds the threshold — the
comparison of `Dashboard.new_pressure_data` line 578. -/
def breachb (base swl thr pressure : ℚ) : Bool :=
  decide (calculate_water_height base pressure - swl > thr)

/-- Feed a list of timestamped pressure samples through
`Dashboard.new_pressure_data` in order (the producer thread's delivery loop),
counting how many alarm dispatches are started. -/
def run_pressure_samples : DashState → List (ℚ × ℚ) → DashState × Nat
  | st, [] => (st, 0)
  | st, (t, p) :: rest =>
    let r := new_pressure_data st t p
    let r2 := run_pressure_samples r.1 rest
    (r2.1, (if r.2 then 1 else 0) + r2.2)

/-- Invariant relating the alarm latch to its snapshot: whenever `alarm_sent`
is set, both activation-snapshot fields hold a value (so the popup built by
`Dashboard.window_activate_alarm` / `alarm_pop_up` never formats `None`). -/
def AlarmSnapshotInv (st : DashState) : Prop :=
  st.alarm_sent = true →
    st.pressure_on_alarm_activate ≠ none ∧ st.wave_height_on_alarm_activate ≠ none

/-- The source's clamping idiom `if v < 0 then 0 else v` is `max v 0`. -/
lemma ite_neg_zero_eq_max (v : ℚ) : (if v < 0 then (0 : ℚ) else v) = max v 0 := by
  split_ifs with h
  · exact (max_eq_right h.le).symm
  · exact (max_eq_left (not_lt.mp h)).symm

/-- On a list whose elements can only stop satisfying `p` as the list
progresses (pairwise: once `p` fails it stays failed), a backward-stopping
`takeWhile` collects the same elements as `filter`. -/
lemma takeWhile_eq_filter_of_pairwise {α : Type} (p : α → Bool) :
    ∀ l : List α, l.Pairwise (fun a b => p a = false → p b = false) →
      l.takeWhile p = l.filter p
  | [], _ => rfl
  | a :: l, h => by
    rcases List.pairwise_cons.mp h with ⟨h1, h2⟩
    by_cases hp : p a = true
    · simp only [List.takeWhile_cons, List.filter_cons, hp, if_pos,
        takeWhile_eq_filter_of_pairwise p l h2]
    · have hp' : p a = false := by simpa using hp
      have hnil : l.filter p = [] := by
        rw [List.filter_eq_nil_iff]
        intro b hb
        simp [h1 b hb hp']
      simp [List.takeWhile_cons, List.filter_cons, hp', hnil]

/-- Zipping value lists onto a non-decreasing timestamp list gives pairwise
non-decreasing first components. -/
lemma pairwise_zip_fst {xs ys : List ℚ} (h : xs.Pairwise (· ≤ ·)) :
    (xs.zip ys).Pairwise fun a b => a.1 ≤ b.1 := by
  induction xs generalizing ys with
  | nil => simp
  | cons x xs ih =>
    cases ys with
    | nil => simp
    | cons y ys =>
      rcases List.pairwise_cons.mp h with ⟨h1, h2⟩
      rw [List.zip_cons_cons]
      refine List.pairwise_cons.mpr ⟨?_, ih h2⟩
      rintro ⟨b1, b2⟩ hb
      exact h1 b1 (List.of_mem_zip hb).1

/-- Claim C1 (counterexample): on the buffer with appended samples
`(0, 10), (1, 20)` (timestamps non-decreasing) and cutoff `0`, the windowed
query returns the matching samples newest first, `([1, 0], [20, 10])`, which
is not the chronological (append-order) sequence `([0, 1], [10, 20])` the
claim asserts. -/
theorem get_data_within_last_x_not_chronological :
    get_data_within_last_x ⟨[0, 1], [10, 20]⟩ 0 = ([1, 0], [20, 10]) ∧
    get_data_within_last_x ⟨[0, 1], [10, 20]⟩ 0 ≠ ([0, 1], [10, 20]) := by
  decide

/-- Claim C1 (amended): for every buffer of appended samples with
non-decreasing timestamps and every cutoff `t`, `get_data_within_last_x`
returns exactly the samples with timestamp `≥ t` — in reverse chronological
order (newest first); in particular a cutoff newer than all samples yields an
empty sequence (the filter keeps nothing). -/
theorem get_data_within_last_x_window (ch : Channel) (t : ℚ)
    (hs : ch.xs.Pairwise (· ≤ ·)) :
    get_data_within_last_x ch t =
      ((((ch.xs.zip ch.ys).filter fun pt => decide (t ≤ pt.1)).map Prod.fst).reverse,
       (((ch.xs.zip ch.ys).filter fun pt => decide (t ≤ pt.1)).map Prod.snd).reverse) := by
  have hpred : ∀ l : List (ℚ × ℚ),
      (l.filter fun pt => !decide (pt.1 < t)) = l.filter fun pt => decide (t ≤ pt.1) := by
    intro l
    apply List.filter_congr
    intro a _
    rw [← decide_not]
    exact decide_eq_decide.mpr not_lt
  have hpair : (ch.xs.zip ch.ys).reverse.Pairwise
      fun a b => (!decide (a.1 < t)) = false → (!decide (b.1 < t)) = false := by
    rw [List.pairwise_reverse]
    apply (pairwise_zip_fst hs).imp
    intro a b hab hpb
    have hb : b.1 < t := by simpa using hpb
    have ha : a.1 < t := lt_of_le_of_lt hab hb
    simpa using ha
  unfold get_data_within_last_x
  rw [takeWhile_eq_filter_of_pairwise _ _ hpair, List.filter_reverse, hpred]
  simp only [List.map_reverse]

/-- Claim C1 (witness): the amended theorem applied to the concrete sorted
buffer `(0, 5), (1, 6), (2, 7)` with cutoff `1`. -/
theorem get_data_within_last_x_window_witness :
    get_data_within_last_x ⟨[0, 1, 2], [5, 6, 7]⟩ 1 = ([2, 1], [7, 6]) := by
  have h := get_data_within_last_x_window ⟨[0, 1, 2], [5, 6, 7]⟩ 1 (by decide)
  rw [h]
  decide

/-- Claim C3 (counterexample): on a buffer whose last appended timestamp is
`5`, appending a sample with the strictly smaller timestamp `3` does not fail
and does not leave the buffer unchanged — `add_data_point` simply appends it. -/
theorem add_data_point_out_of_order_accepted :
    (3 : ℚ) < 5 ∧
    add_data_point ⟨[5], [1]⟩ 3 2 = ⟨[5, 3], [1, 2]⟩ ∧
    add_data_point ⟨[5], [1]⟩ 3 2 ≠ ⟨[5], [1]⟩ := by
  decide

/-- Claim C3 (amended): appending a sample whose timestamp is strictly less
than the last appended timestamp succeeds all the same — `add_data_point`
performs no ordering check, appends the pair, and the buffer contents do
change (no `OrderingViolation` is ever raised). -/
theorem add_data_point_no_ordering_check (ch : Channel) (x y l : ℚ)
    (hl : ch.xs.getLast? = some l) (hx : x < l) :
    add_data_point ch x y = ⟨ch.xs ++ [x], ch.ys ++ [y]⟩ ∧
    (add_data_point ch x y).xs ≠ ch.xs := by
  refine ⟨rfl, fun h => ?_⟩
  have := congrArg List.length h
  simp [add_data_point] at this

/-- Claim C3 (witness): the amended theorem at the concrete buffer with last
timestamp `7` and the out-of-order append of timestamp `4`. -/
theorem add_data_point_no_ordering_check_witness :
    add_data_point ⟨[7], [0]⟩ 4 9 = ⟨[7, 4], [0, 9]⟩ ∧
    (add_data_point ⟨[7], [0]⟩ 4 9).xs ≠ [7] := by
  exact add_data_point_no_ordering_check ⟨[7], [0]⟩ 4 9 7 (by decide) (by decide)

/-- Claim C4 (code-bug evidence): with the standing water level calibrated,
the input `0` — which parses as a float that is not strictly greater than 0 —
is accepted by `set_alarm_threshold` and stored as the alarm threshold, even
though the code's own rejection message reads "Alarm threshold must be
greater than 0" (the comparison written on line 844 is `alarm_threshold < 0`,
so `0` slips through). -/
theorem set_alarm_threshold_accepts_zero :
    set_alarm_threshold { dashboard_init with standing_water_level := some 5 } (some 0) =
      ({ dashboard_init with standing_water_level := some 5, alarm_threshold := some 0 },
        true) := by
  decide

/-- Claim C5: for every fixed baseline, `calculate_water_height` is
monotonically non-decreasing in the pressure argument, and returns exactly `0`
for every pressure less than or equal to the baseline (negative computed
heights are clamped to 0). -/
theorem calculate_water_height_monotone_clamped :
    (∀ base p1 p2 : ℚ, p1 ≤ p2 →
      calculate_water_height base p1 ≤ calculate_water_height base p2) ∧
    (∀ base p : ℚ, p ≤ base → calculate_water_height base p = 0) := by
  constructor
  · intro base p1 p2 h
    simp only [calculate_water_height]
    have hle : ((p1 - base) * 100) / (997 * (981 / 100) : ℚ)
        ≤ ((p2 - base) * 100) / (997 * (981 / 100)) := by
      gcongr
    rcases lt_or_le (((p1 - base) * 100) / (997 * (981 / 100) : ℚ)) 0 with hu | hu
    · rw [if_pos hu]
      rcases lt_or_le (((p2 - base) * 100) / (997 * (981 / 100) : ℚ)) 0 with hv | hv
      · rw [if_pos hv]
      · rw [if_neg (not_lt.mpr hv)]
        exact mul_nonneg hv (by norm_num)
    · rw [if_neg (not_lt.mpr hu), if_neg (not_lt.mpr (le_trans hu hle))]
      exact mul_le_mul_of_nonneg_right hle (by norm_num)
  · intro base p h
    simp only [calculate_water_height]
    rcases lt_or_le (((p - base) * 100) / (997 * (981 / 100) : ℚ)) 0 with hu | hu
    · rw [if_pos hu]
    · rw [if_neg (not_lt.mpr hu)]
      have hnum : (p - base) * 100 ≤ 0 := by nlinarith
      have hle2 : ((p - base) * 100) / (997 * (981 / 100) : ℚ) ≤ 0 :=
        div_nonpos_iff.mpr (Or.inr ⟨hnum, by norm_num⟩)
      have hz : ((p - base) * 100) / (997 * (981 / 100) : ℚ) = 0 := le_antisymm hle2 hu
      rw [hz, zero_mul]

/-- Claim C5 (witness): monotonicity at the concrete pressures `990 ≤ 1010`
over baseline `1000`, and exact zero at the below-baseline pressure `990`. -/
theorem calculate_water_height_monotone_clamped_witness :
    calculate_water_height 1000 990 ≤ calculate_water_height 1000 1010 ∧
    calculate_water_height 1000 990 = 0 := by
  exact ⟨calculate_water_height_monotone_clamped.1 1000 990 1010 (by norm_num),
    calculate_water_height_monotone_clamped.2 1000 990 (by norm_num)⟩

/-- Claim C7: with baseline `1013.25` hPa, a sample pressure of `1013.25`
gives water height exactly `0`, and a sample pressure of `1023.25` (a 10 hPa
difference) gives approximately `10.23` cm — within `0.01` of it, per
`h = 10 * 100 / (997 * 9.81)` metres converted to centimetres (the exact value
is `10000000 / 978057 ≈ 10.2244` cm). -/
theorem calculate_water_height_scenario :
    calculate_water_height 1013.25 1013.25 = 0 ∧
    calculate_water_height 1013.25 1023.25 = 10000000 / 978057 ∧
    |calculate_water_height 1013.25 1023.25 - 10.23| < 1 / 100 := by
  refine ⟨?_, ?_, ?_⟩
  · norm_num [calculate_water_height]
  · norm_num [calculate_water_height]
  · norm_num [calculate_water_height, abs_lt]

/-- Claim C9: `get_number_color` is total — for a threshold of exactly `0`
(which `set_alarm_threshold` admits) it short-circuits to the default colour
before the ratio `number / max` is formed, and for every number and threshold
it returns one of the five colour strings. -/
theorem get_number_color_total :
    (∀ n : ℚ, get_number_color n 0 = "#E4FDE1") ∧
    (∀ n m : ℚ, get_number_color n m = "#E4FDE1" ∨ get_number_color n m = "#FB363A" ∨
      get_number_color n m = "#F97E36" ∨ get_number_color n m = "#E8E055" ∨
      get_number_color n m = "#41D3BD") := by
  constructor
  · intro n
    simp [get_number_color]
  · intro n m
    simp only [get_number_color]
    split_ifs <;> simp

/-- Claim C6: a calibration over an empty sample window fails (the
`ZeroDivisionError` path: success flag `false`) and returns the state exactly
as it was — `calibrated_air_pressure`, `standing_water_level` and
`standing_water_air_pressure` all unchanged, with no partial update or silent
default.  For `calibrate_swh` the first statement of the `try` block is the
mean over the water-height window, so an empty water-height window aborts
before any assignment. -/
theorem calibrate_empty_window_no_change :
    (∀ (st : DashState) (now len : ℚ), air_pressure_window st now len = [] →
      calibrate_air_pressure st now len = (st, false)) ∧
    (∀ (st : DashState) (now len : ℚ),
      (get_data_within_last_x st.waterHeightCh (now - len)).2 = [] →
      calibrate_swh st now len = (st, false)) := by
  constructor
  · intro st now len h
    simp [calibrate_air_pressure, h]
  · intro st now len h
    simp [calibrate_swh, h]

/-- Claim C6 (witness): both calibrations applied to a concrete state with
empty buffers but every calibration value already set; each returns the state
unchanged with a `false` success flag. -/
theorem calibrate_empty_window_no_change_witness :
    calibrate_air_pressure
        { dashboard_init with
          calibrated_air_pressure := some 1000
          standing_water_level := some 5
          standing_water_air_pressure := some 1001 } 10 5 =
      ({ dashboard_init with
          calibrated_air_pressure := some 1000
          standing_water_level := some 5
          standing_water_air_pressure := some 1001 }, false) ∧
    calibrate_swh
        { dashboard_init with
          calibrated_air_pressure := some 1000
          standing_water_level := some 5
          standing_water_air_pressure := some 1001 } 10 5 =
      ({ dashboard_init with
          calibrated_air_pressure := some 1000
          standing_water_level := some 5
          standing_water_air_pressure := some 1001 }, false) := by
  exact ⟨calibrate_empty_window_no_change.1 _ 10 5 (by decide),
    calibrate_empty_window_no_change.2 _ 10 5 (by decide)⟩

/-- Claim C10: over a non-empty water-height window with a calibrated
standing water level, the peak and current wave-height statistics computed by
`update_statistics` are the corresponding window value minus the standing
water level clamped below at `0` — the window maximum for the peak and the
most recent window sample (`window[0]`) for the current value — so neither
displayed wave height is ever negative. -/
theorem update_statistics_wave_clamped (st : DashState) (now period swl y0 : ℚ)
    (rest : List ℚ)
    (hw : (get_data_within_last_x st.waterHeightCh (now - period)).2 = y0 :: rest)
    (hs : st.standing_water_level = some swl) :
    update_statistics st now period =
      (some (max (rest.foldl max y0 - swl) 0), some (max (y0 - swl) 0)) ∧
    0 ≤ max (rest.foldl max y0 - swl) 0 ∧ 0 ≤ max (y0 - swl) 0 := by
  refine ⟨?_, le_max_right _ _, le_max_right _ _⟩
  simp only [update_statistics, hw, hs]
  rw [ite_neg_zero_eq_max, ite_neg_zero_eq_max]

/-- Claim C10 (witness): the theorem at a concrete buffer whose window is
`[1, 3]` (newest first) with standing water level `2`: the peak wave height is
`max 1 3 - 2 = 1` and the current wave height clamps `1 - 2` to `0`. -/
theorem update_statistics_wave_clamped_witness :
    update_statistics
        { dashboard_init with
          waterHeightCh := ⟨[1, 2], [3, 1]⟩
          standing_water_level := some 2 } 2 10 = (some 1, some 0) := by
  have h := update_statistics_wave_clamped
    { dashboard_init with waterHeightCh := ⟨[1, 2], [3, 1]⟩, standing_water_level := some 2 }
    2 10 2 1 [3] (by norm_num [get_data_within_last_x, List.takeWhile_cons]) rfl
  rw [h.1]
  norm_num

/-- Claim C8: the latch/snapshot invariant — `alarm_sent = true` implies both
activation-snapshot fields are present — holds initially and is preserved by
every state-changing operation: `new_pressure_data` stores the snapshot in the
same step that sets the latch, `reset_alarm` clears the latch together with
both snapshot fields, and the threshold/calibration operations touch neither.
Hence the activation popup (which formats the snapshot while `alarm_sent`
holds) never formats a missing reading. -/
theorem alarm_snapshot_invariant :
    AlarmSnapshotInv dashboard_init ∧
    (∀ (st : DashState) (t p : ℚ), AlarmSnapshotInv st →
      AlarmSnapshotInv (new_pressure_data st t p).1) ∧
    (∀ st : DashState, AlarmSnapshotInv (reset_alarm st)) ∧
    (∀ (st : DashState) (input : Option ℚ), AlarmSnapshotInv st →
      AlarmSnapshotInv (set_alarm_threshold st input).1) ∧
    (∀ (st : DashState) (now len : ℚ), AlarmSnapshotInv st →
      AlarmSnapshotInv (calibrate_air_pressure st now len).1) ∧
    (∀ (st : DashState) (now len : ℚ), AlarmSnapshotInv st →
      AlarmSnapshotInv (calibrate_swh st now len).1) := by
  refine ⟨?_, ?_, ?_, ?_, ?_, ?_⟩
  · intro h
    simp [dashboard_init] at h
  · intro st t p hinv
    unfold AlarmSnapshotInv at hinv ⊢
    unfold new_pressure_data
    dsimp only
    split
    · simpa using hinv
    · split
      · split
        · intro _
          simp
        · simpa using hinv
      · simpa using hinv
  · intro st h
    simp [reset_alarm] at h
  · intro st input hinv
    unfold AlarmSnapshotInv at hinv ⊢
    unfold set_alarm_threshold
    split
    · simpa using hinv
    · split
      · simpa using hinv
      · split
        · simpa using hinv
        · simpa using hinv
  · intro st now len hinv
    unfold AlarmSnapshotInv at hinv ⊢
    unfold calibrate_air_pressure
    dsimp only
    split
    · simpa using hinv
    · simpa using hinv
  · intro st now len hinv
    unfold AlarmSnapshotInv at hinv ⊢
    unfold calibrate_swh
    dsimp only
    split
    · simpa using hinv
    · split
      · simpa using hinv
      · simpa using hinv

/-- Claim C8 (witness): the preservation clause for `new_pressure_data`
applied to the freshly initialised dashboard state and one concrete sample. -/
theorem alarm_snapshot_invariant_witness :
    AlarmSnapshotInv (new_pressure_data dashboard_init 1 1000).1 :=
  alarm_snapshot_invariant.2.1 dashboard_init 1 1000
    (by intro h; simp [dashboard_init] at h)

/-- One `new_pressure_data` step in the ready configuration (all of baseline,
standing water level and threshold set): the three configuration fields are
preserved, the latch afterwards is `previous latch OR this sample breaches`,
and an alarm dispatch is started exactly when the latch was clear and the
sample breaches. -/
lemma new_pressure_data_ready (st : DashState) (t p base swl thr : ℚ)
    (h1 : st.calibrated_air_pressure = some base)
    (h2 : st.standing_water_level = some swl)
    (h3 : st.alarm_threshold = some thr) :
    (new_pressure_data st t p).1.calibrated_air_pressure = some base ∧
    (new_pressure_data st t p).1.standing_water_level = some swl ∧
    (new_pressure_data st t p).1.alarm_threshold = some thr ∧
    (new_pressure_data st t p).1.alarm_sent = (st.alarm_sent || breachb base swl thr p) ∧
    (new_pressure_data st t p).2 = (!st.alarm_sent && breachb base swl thr p) := by
  unfold new_pressure_data
  dsimp only
  rw [h1]
  dsimp only
  rw [h2, h3]
  dsimp only
  by_cases hb : calculate_water_height base p - swl > thr
  · cases hs : st.alarm_sent
    · rw [if_pos ⟨hb, rfl⟩]
      simp [breachb, hb, h1, h2, h3]
    · rw [if_neg (by simp)]
      simp [breachb, hb, h1, h2, h3]
  · rw [if_neg (by simp [hb])]
    simp [breachb, hb, h1, h2, h3]

/-- Running a sample list through `new_pressure_data` from a ready
configuration: the configuration fields survive, the final latch is
`initial latch OR some sample breaches`, and the number of alarm dispatches
is `0` when the latch was already set, else `1` when some sample breaches and
`0` otherwise. -/
lemma run_pressure_samples_count (base swl thr : ℚ) (samples : List (ℚ × ℚ)) :
    ∀ st : DashState,
      st.calibrated_air_pressure = some base →
      st.standing_water_level = some swl →
      st.alarm_threshold = some thr →
      (run_pressure_samples st samples).1.calibrated_air_pressure = some base ∧
      (run_pressure_samples st samples).1.standing_water_level = some swl ∧
      (run_pressure_samples st samples).1.alarm_threshold = some thr ∧
      (run_pressure_samples st samples).1.alarm_sent
        = (st.alarm_sent || samples.any fun s => breachb base swl thr s.2) ∧
      (run_pressure_samples st samples).2
        = (if st.alarm_sent = true then 0
           else if (samples.any fun s => breachb base swl thr s.2) = true then 1 else 0) := by
  induction samples with
  | nil =>
    intro st h1 h2 h3
    simp [run_pressure_samples, h1, h2, h3]
  | cons s rest ih =>
    obtain ⟨t, p⟩ := s
    intro st h1 h2 h3
    obtain ⟨g1, g2, g3, g4, g5⟩ := new_pressure_data_ready st t p base swl thr h1 h2 h3
    obtain ⟨r1, r2, r3, r4, r5⟩ := ih (new_pressure_data st t p).1 g1 g2 g3
    simp only [run_pressure_samples, List.any_cons]
    refine ⟨r1, r2, r3, ?_, ?_⟩
    · rw [r4, g4, Bool.or_assoc]
    · rw [g5, r5, g4]
      by_cases hs : st.alarm_sent = true <;> by_cases hb : breachb base swl thr p = true <;>
        by_cases ha : (rest.any fun s => breachb base swl thr s.2) = true <;>
          simp [hs, hb, ha]

/-- Claim C2: the alarm is a one-shot latch.  From a ready state (baseline,
standing water level and threshold all set, latch clear), a run of samples
dispatches the alarm exactly once when some sample's wave height exceeds the
threshold and not at all otherwise — subsequent breaching samples in the same
run add nothing; the latch afterwards records whether a breach occurred;
`reset_alarm` clears the latch and the captured snapshot; and a second run
after the reset can again dispatch exactly once on a new breach. -/
theorem alarm_one_shot_latch (st : DashState) (base swl thr : ℚ)
    (samples1 samples2 : List (ℚ × ℚ))
    (h1 : st.calibrated_air_pressure = some base)
    (h2 : st.standing_water_level = some swl)
    (h3 : st.alarm_threshold = some thr)
    (h4 : st.alarm_sent = false) :
    (run_pressure_samples st samples1).2
      = (if (samples1.any fun s => breachb base swl thr s.2) = true then 1 else 0) ∧
    (run_pressure_samples st samples1).1.alarm_sent
      = (samples1.any fun s => breachb base swl thr s.2) ∧
    (reset_alarm (run_pressure_samples st samples1).1).alarm_sent = false ∧
    (reset_alarm (run_pressure_samples st samples1).1).pressure_on_alarm_activate = none ∧
    (reset_alarm (run_pressure_samples st samples1).1).wave_height_on_alarm_activate = none ∧
    (run_pressure_samples (reset_alarm (run_pressure_samples st samples1).1) samples2).2
      = (if (samples2.any fun s => breachb base swl thr s.2) = true then 1 else 0) := by
  obtain ⟨r1, r2, r3, r4, r5⟩ := run_pressure_samples_count base swl thr samples1 st h1 h2 h3
  obtain ⟨q1, q2, q3, q4, q5⟩ := run_pressure_samples_count base swl thr samples2
    (reset_alarm (run_pressure_samples st samples1).1)
    (by simpa [reset_alarm] using r1) (by simpa [reset_alarm] using r2)
    (by simpa [reset_alarm] using r3)
  refine ⟨?_, ?_, rfl, rfl, rfl, ?_⟩
  · rw [r5, h4]
    simp
  · rw [r4, h4]
    simp
  · rw [q5]
    simp [reset_alarm]

/-- Claim C2 (witness): a ready state with baseline `1000`, standing water
level `5` and threshold `2`; the first run contains two breaching samples yet
dispatches exactly once, and after `reset_alarm` a further breaching run
dispatches exactly once more. -/
theorem alarm_one_shot_latch_witness :
    (run_pressure_samples
      { dashboard_init with
        calibrated_air_pressure := some 1000
        standing_water_level := some 5
        alarm_threshold := some 2 } [(1, 1030), (2, 1040)]).2 = 1 ∧
    (run_pressure_samples
      (reset_alarm (run_pressure_samples
        { dashboard_init with
          calibrated_air_pressure := some 1000
          standing_water_level := some 5
          alarm_threshold := some 2 } [(1, 1030), (2, 1040)]).1) [(3, 1050)]).2 = 1 := by
  have h := alarm_one_shot_latch
    { dashboard_init with
      calibrated_air_pressure := some 1000
      standing_water_level := some 5
      alarm_threshold := some 2 } 1000 5 2 [(1, 1030), (2, 1040)] [(3, 1050)]
    rfl rfl rfl rfl
  refine ⟨?_, ?_⟩
  · rw [h.1]
    norm_num [breachb, calculate_water_height]
  · rw [h.2.2.2.2.2]
    norm_num [breachb, calculate_water_height]

end Crisislab
